import Mathlib

/-!
Shallow embedding of `privval/signer_listener_endpoint.go`
(`SignerListenerEndpoint`): the connection lifecycle, heartbeat /
reconnection loop and the request/response transport built on a single
shared connection.

Modelling conventions:

* The Go methods that run under `ve.mtx` are embedded as atomic Lean
  functions on an explicit `EndpointState`; the mutex-guarded critical
  section is one function application.
* Collaborators are oracles: a `Conn` value carries the outcomes its
  `Close`, write and read calls would produce; the listener's
  `Accept` outcome for a particular call is passed in as an
  `AcceptResult` (per the listener contract: a new connection, the
  closed signal `(nil, nil)`, or an error with no connection).
* Go error values become the tagged type `Err`; the sentinels
  `ErrUnexpectedResponse` and `ErrListenerTimeout` and the freshly
  created `fmt.Errorf` values are pairwise distinct error values, hence
  distinct constructors.
* Operations are instrumented with event traces (which calls were made,
  in which order) so that ordering and "was not attempted" statements
  are expressible; the un-instrumented result is a projection.
-/

/-- Tagged model of the Go `error` values that can flow through the
endpoint: the distinguished sentinels, wrapped timeouts, and opaque
I/O / accept / close errors identified by a numeric code. -/
inductive Err where
  /-- the sentinel `ErrUnexpectedResponse` -/
  | unexpectedResponse
  /-- a timeout error wrapped as `ErrListenerTimeout` with the original message -/
  | listenerTimeout (s : String)
  /-- the fresh error created by fmt.Errorf of the text: listener is closed -/
  | listenerClosed
  /-- the fresh error created by fmt.Errorf of the text: endpoint is not connected -/
  | notConnected
  /-- any other opaque I/O, accept or close error -/
  | ioError (n : Nat)
  deriving DecidableEq, Repr

/-- Model of `RemoteSignerMsg`: the heartbeat pair is distinguished,
all other variants pass through as opaque tagged payloads. -/
inductive RemoteSignerMsg where
  | pingRequest
  | pingResponse
  /-- any non-ping message variant (signing requests/responses etc.) -/
  | other (n : Nat)
  deriving DecidableEq, Repr

/-- Raw outcome of a codec/net read or write before the endpoint
classifies it: Go inspects the dynamic type for `timeoutError`. -/
inductive IOFailure where
  | timeoutFailure (s : String)
  | otherFailure (n : Nat)
  deriving DecidableEq, Repr

/-- The classification both `readMessage` and `writeMessage` apply:
a `timeoutError` is wrapped as `ErrListenerTimeout`, anything else is
surfaced unchanged. -/
def classifyIOFailure : IOFailure → Err
  | IOFailure.timeoutFailure s => Err.listenerTimeout s
  | IOFailure.otherFailure n => Err.ioError n

instance {ε α : Type} [DecidableEq ε] [DecidableEq α] : DecidableEq (Except ε α) := fun a b =>
  match a, b with
  | Except.error e1, Except.error e2 => decidable_of_iff (e1 = e2) (by simp)
  | Except.error _, Except.ok _ => Decidable.isFalse (by simp)
  | Except.ok _, Except.error _ => Decidable.isFalse (by simp)
  | Except.ok a1, Except.ok a2 => decidable_of_iff (a1 = a2) (by simp)

/-- Oracle model of a `net.Conn`: an identity plus the outcomes its
`Close`, framed write and framed read would produce. -/
structure Conn where
  id : Nat
  /-- result of `conn.Close()`: `none` = success -/
  closeErr : Option Err
  /-- outcome of `cdc.MarshalBinaryLengthPrefixedWriter(conn, msg)`: `none` = success -/
  writeOutcome : Option IOFailure
  /-- outcome of `cdc.UnmarshalBinaryLengthPrefixedReader(conn, ...)` -/
  readOutcome : Except IOFailure RemoteSignerMsg
  deriving DecidableEq, Repr

/-- Oracle model of the `net.Listener` handle: identity plus the
outcome of its `Close()`. -/
structure Listener where
  id : Nat
  closeErr : Option Err
  deriving DecidableEq, Repr

/-- Outcome of one `listener.Accept()` call, per the listener
contract used by `connect`: a new connection, the closed signal
(a nil connection with nil error), or an error (no connection). -/
inductive AcceptResult where
  | newConn (c : Conn)
  | closedSignal
  | acceptFailed (e : Err)
  deriving DecidableEq, Repr

/-- State of the `cancelPingCh` channel object: open, or already
closed (a second `close` on it would panic in Go). -/
inductive ChanState where
  | openCh
  | closedCh
  deriving DecidableEq, Repr

/-- The mutable fields of `SignerListenerEndpoint` relevant to the
lifecycle, transport and heartbeat machinery. -/
structure EndpointState where
  listener : Option Listener
  conn : Option Conn
  cancelPingCh : Option ChanState
  pingTickerActive : Bool
  deriving DecidableEq, Repr

/-- writeMessage: fails with the not-connected error when no
connection is held; otherwise performs the framed write, wrapping a
timeout as `ErrListenerTimeout`. Returns `none` on success. -/
def writeMessage (st : EndpointState) (_msg : RemoteSignerMsg) : Option Err :=
  match st.conn with
  | none => some Err.notConnected
  | some c =>
    match c.writeOutcome with
    | none => none
    | some f => some (classifyIOFailure f)

/-- readMessage: performs the framed read on the current connection,
wrapping a timeout as `ErrListenerTimeout`. The Go code does not guard
against a nil connection here (its TODO notes this); that branch would
dereference nil and is unreachable through `SendRequest`, which fails
in `writeMessage` first; we map it to the opaque error code 0. -/
def readMessage (st : EndpointState) : Except Err RemoteSignerMsg :=
  match st.conn with
  | none => Except.error (Err.ioError 0)
  | some c =>
    match c.readOutcome with
    | Except.error f => Except.error (classifyIOFailure f)
    | Except.ok m => Except.ok m

/-- Events recorded during one `SendRequest` exchange: which transport
calls were attempted and their outcomes. -/
inductive XferEv where
  | writeAttempt (r : Option Err)
  | readAttempt (r : Option Err)
  deriving DecidableEq, Repr

/-- SendRequest, instrumented: under the mutex, write the request;
on write failure return (nil, err) without attempting the read;
otherwise read and return (nil, err) on read failure or (res, nil)
on success. The trace records the attempted transport calls in order. -/
def SendRequestTr (st : EndpointState) (request : RemoteSignerMsg) :
    (Option RemoteSignerMsg × Option Err) × List XferEv :=
  match writeMessage st request with
  | some e => ((none, some e), [XferEv.writeAttempt (some e)])
  | none =>
    match readMessage st with
    | Except.error e =>
      ((none, some e), [XferEv.writeAttempt none, XferEv.readAttempt (some e)])
    | Except.ok res =>
      ((some res, none), [XferEv.writeAttempt none, XferEv.readAttempt none])

/-- SendRequest as the caller sees it: the (response, error) pair. -/
def SendRequest (st : EndpointState) (request : RemoteSignerMsg) :
    Option RemoteSignerMsg × Option Err :=
  (SendRequestTr st request).1

/-- ping: send a `PingRequest` through `SendRequest`; propagate its
error unchanged; otherwise the type assertion to `*PingResponse` must
succeed, else the sentinel `ErrUnexpectedResponse` is returned. -/
def ping (st : EndpointState) : Option Err :=
  match SendRequest st RemoteSignerMsg.pingRequest with
  | (_, some e) => some e
  | (response, none) =>
    match response with
    | some RemoteSignerMsg.pingResponse => none
    | _ => some Err.unexpectedResponse

/-- Events recorded by `Close`: which close calls were made and what
each returned. -/
inductive CloseEv where
  | connCloseCall (r : Option Err)
  | listenerCloseCall (r : Option Err)
  deriving DecidableEq, Repr

/-- Result of `Close`: the state afterwards, the returned error, the
individually logged errors, and the ordered trace of close calls. -/
structure CloseResult where
  st : EndpointState
  err : Option Err
  logged : List Err
  trace : List CloseEv
  deriving DecidableEq, Repr

/-- Close, instrumented, mirroring the Go control flow exactly:
if a connection is held, call its Close; on failure log the error and
return it immediately (the connection field is not cleared and the
listener close is not reached); on success clear the connection field.
Then, if the listener is non-nil, call its Close; on failure log and
return the error. The listener field is never cleared. -/
def CloseTr (st : EndpointState) : CloseResult :=
  match st.conn with
  | some c =>
    match c.closeErr with
    | some e =>
      { st := st, err := some e, logged := [e],
        trace := [CloseEv.connCloseCall (some e)] }
    | none =>
      let st1 : EndpointState := { st with conn := none }
      match st1.listener with
      | some l =>
        match l.closeErr with
        | some e =>
          { st := st1, err := some e, logged := [e],
            trace := [CloseEv.connCloseCall none, CloseEv.listenerCloseCall (some e)] }
        | none =>
          { st := st1, err := none, logged := [],
            trace := [CloseEv.connCloseCall none, CloseEv.listenerCloseCall none] }
      | none =>
        { st := st1, err := none, logged := [], trace := [CloseEv.connCloseCall none] }
  | none =>
    match st.listener with
    | some l =>
      match l.closeErr with
      | some e =>
        { st := st, err := some e, logged := [e],
          trace := [CloseEv.listenerCloseCall (some e)] }
      | none =>
        { st := st, err := none, logged := [],
          trace := [CloseEv.listenerCloseCall none] }
    | none => { st := st, err := none, logged := [], trace := [] }

/-- Events recorded by `connect`: the close of the pre-existing
connection (with its outcome) and the store into the connection field
performed by the accept assignment. -/
inductive ConnectEv where
  | closedOldConn (r : Option Err)
  | storedConn (c : Option Conn)
  deriving DecidableEq, Repr

/-- Result of `connect`: state, the (closed, err) pair the Go function
returns, the logged close errors and the ordered event trace. -/
structure ConnectResult where
  st : EndpointState
  closed : Bool
  err : Option Err
  logged : List Err
  trace : List ConnectEv
  deriving DecidableEq, Repr

/-- connect, instrumented: under the mutex, first close the existing
connection if any (a close failure is only logged); then the accept
assignment `ve.conn, err = ve.listener.Accept()` stores the accept
outcome into the connection field; an accept error returns
(false, err), a nil connection returns (true, nil), otherwise
(false, nil). The later `if err != nil` block in the Go source is dead
code (that path already returned) and contributes nothing. -/
def connectTr (st : EndpointState) (acc : AcceptResult) : ConnectResult :=
  let pre : List ConnectEv × List Err :=
    match st.conn with
    | some c => ([ConnectEv.closedOldConn c.closeErr], c.closeErr.toList)
    | none => ([], [])
  match acc with
  | AcceptResult.newConn c =>
    { st := { st with conn := some c }, closed := false, err := none,
      logged := pre.2, trace := pre.1 ++ [ConnectEv.storedConn (some c)] }
  | AcceptResult.closedSignal =>
    { st := { st with conn := none }, closed := true, err := none,
      logged := pre.2, trace := pre.1 ++ [ConnectEv.storedConn none] }
  | AcceptResult.acceptFailed e =>
    { st := { st with conn := none }, closed := false, err := some e,
      logged := pre.2, trace := pre.1 ++ [ConnectEv.storedConn none] }

/-- Result of `OnStart`: the state afterwards, the returned error, and
whether the heartbeat goroutine was launched. -/
structure StartResult where
  st : EndpointState
  err : Option Err
  loopLaunched : Bool
  deriving DecidableEq, Repr

/-- OnStart: call `connect`; on error return it without launching the
heartbeat loop; if it reported closure return the fresh
listener-is-closed error, again without launching the loop; otherwise
create the cancellation channel, start the ticker, launch the
heartbeat goroutine and return nil. -/
def OnStart (st : EndpointState) (acc : AcceptResult) : StartResult :=
  let r := connectTr st acc
  match r.err with
  | some e => { st := r.st, err := some e, loopLaunched := false }
  | none =>
    if r.closed then
      { st := r.st, err := some Err.listenerClosed, loopLaunched := false }
    else
      { st := { r.st with cancelPingCh := some ChanState.openCh, pingTickerActive := true },
        err := none, loopLaunched := true }

/-- Closing a Go channel: closing an open channel succeeds and leaves
it closed; closing an already-closed channel panics. -/
def closeChan : ChanState → Except Unit ChanState
  | ChanState.openCh => Except.ok ChanState.closedCh
  | ChanState.closedCh => Except.error ()

/-- OnStop: if the cancellation channel field is non-nil, close the
channel (this panics, modelled as `none`, if the channel object were
already closed) and clear the field; then call `Close`, discarding its
error. The boolean reports whether this call closed the channel. -/
def OnStop (st : EndpointState) : Option (EndpointState × Bool) :=
  match st.cancelPingCh with
  | some ch =>
    match closeChan ch with
    | Except.error _ => none
    | Except.ok _ =>
      let st1 : EndpointState := { st with cancelPingCh := none }
      some ((CloseTr st1).st, true)
  | none => some ((CloseTr st).st, false)

/-- Events recorded by the heartbeat loop: each ping with its outcome,
each connect call with its (closed, err) result, and the cancellation
path stopping the ticker. -/
inductive TraceEv where
  | pinged (r : Option Err)
  | connectCalled (closed : Bool) (r : Option Err)
  | cancelled
  deriving DecidableEq, Repr

/-- The number of connect calls appearing in a heartbeat-loop trace. -/
def countConnects : List TraceEv → Nat
  | [] => 0
  | TraceEv.connectCalled _ _ :: rest => 1 + countConnects rest
  | _ :: rest => countConnects rest

/-- Outcome of one iteration of the heartbeat loop: either the loop
keeps probing with the given state, or it has terminated. -/
inductive StepRes where
  | probing (st : EndpointState)
  | terminated (st : EndpointState)
  deriving DecidableEq, Repr

/-- Whether a loop-iteration outcome is the terminated one. -/
def StepRes.isTerminated : StepRes → Bool
  | StepRes.probing _ => false
  | StepRes.terminated _ => true

/-- The endpoint state carried by a loop-iteration outcome. -/
def StepRes.state : StepRes → EndpointState
  | StepRes.probing st => st
  | StepRes.terminated st => st

/-- Body of one ticker tick of the heartbeat goroutine: ping; on
success continue; on the sentinel `ErrUnexpectedResponse` return
immediately; on any other error call `connect` once — on connect error
continue (retry next tick), on reported closure return, otherwise
continue with the new connection. `acc` is the accept outcome consumed
if and only if `connect` is called. -/
def tickBody (st : EndpointState) (acc : AcceptResult) : StepRes × List TraceEv :=
  match ping st with
  | none => (StepRes.probing st, [TraceEv.pinged none])
  | some e =>
    if e = Err.unexpectedResponse then
      (StepRes.terminated st, [TraceEv.pinged (some e)])
    else
      let r := connectTr st acc
      match r.err with
      | some ce =>
        (StepRes.probing r.st,
         [TraceEv.pinged (some e), TraceEv.connectCalled r.closed (some ce)])
      | none =>
        if r.closed then
          (StepRes.terminated r.st,
           [TraceEv.pinged (some e), TraceEv.connectCalled true none])
        else
          (StepRes.probing r.st,
           [TraceEv.pinged (some e), TraceEv.connectCalled false none])

/-- One scheduling event delivered to the heartbeat loop select:
either the ticker fires (carrying the accept oracle a reconnect on
that tick would consume) or the cancellation channel is signalled. -/
inductive LoopEvent where
  | tickFired (acc : AcceptResult)
  | cancelSignalled
  deriving DecidableEq, Repr

/-- One iteration of the heartbeat loop select: a tick runs the tick
body; the cancellation signal stops the ticker and terminates. -/
def loopStep (st : EndpointState) (ev : LoopEvent) : StepRes × List TraceEv :=
  match ev with
  | LoopEvent.tickFired acc => tickBody st acc
  | LoopEvent.cancelSignalled =>
    (StepRes.terminated { st with pingTickerActive := false }, [TraceEv.cancelled])

/-- Result of running the heartbeat loop over a schedule of events. -/
structure LoopRunResult where
  st : EndpointState
  terminated : Bool
  trace : List TraceEv
  deriving DecidableEq, Repr

/-- Run the heartbeat loop over a finite schedule of events; once an
iteration terminates the loop, no further events are consumed. -/
def loopRun (st : EndpointState) : List LoopEvent → LoopRunResult
  | [] => { st := st, terminated := false, trace := [] }
  | ev :: rest =>
    match loopStep st ev with
    | (StepRes.terminated st1, tr) => { st := st1, terminated := true, trace := tr }
    | (StepRes.probing st1, tr) =>
      let r := loopRun st1 rest
      { st := r.st, terminated := r.terminated, trace := tr ++ r.trace }

/-! Concrete fixture values used by witnesses and counterexamples. -/

/-- A listener whose Close succeeds. -/
def okListener : Listener := { id := 0, closeErr := none }

/-- A connection whose Close, write and read all succeed; reads yield
a PingResponse. -/
def healthyConn : Conn :=
  { id := 1, closeErr := none, writeOutcome := none,
    readOutcome := Except.ok RemoteSignerMsg.pingResponse }

/-- A connection whose Close fails with the opaque error 7. -/
def badCloseConn : Conn :=
  { id := 2, closeErr := some (Err.ioError 7), writeOutcome := none,
    readOutcome := Except.ok RemoteSignerMsg.pingResponse }

/-- A connection that answers with a well-formed but wrong-typed
message (a non-ping variant). -/
def wrongTypedConn : Conn :=
  { id := 3, closeErr := none, writeOutcome := none,
    readOutcome := Except.ok (RemoteSignerMsg.other 5) }

/-- A connection whose write fails with a transport-level error. -/
def brokenConn : Conn :=
  { id := 4, closeErr := none, writeOutcome := some (IOFailure.otherFailure 3),
    readOutcome := Except.error (IOFailure.otherFailure 3) }

/-- An endpoint holding the healthy connection and the ok listener. -/
def baseState : EndpointState :=
  { listener := some okListener, conn := some healthyConn,
    cancelPingCh := none, pingTickerActive := false }

/-- Whether a Close event is the listener-close call. -/
def CloseEv.isListenerCloseCall : CloseEv → Bool
  | CloseEv.listenerCloseCall _ => true
  | CloseEv.connCloseCall _ => false

/-- C1 counterexample state: both a connection and a listener are
held, the connection's Close fails, the listener's Close would
succeed. -/
def closeCexState : EndpointState :=
  { listener := some okListener, conn := some badCloseConn,
    cancelPingCh := none, pingTickerActive := false }

/-- C1 counterexample: in a state holding both a connection and a
listener, where the connection's Close fails, `Close` returns that
error at once and its trace contains no listener-close call at all —
the connection-close failure does suppress the attempt to close the
listener, contradicting the claim. -/
theorem Close_suppresses_listener_close_cex :
    closeCexState.conn ≠ none ∧ closeCexState.listener ≠ none ∧
    (CloseTr closeCexState).err = some (Err.ioError 7) ∧
    (CloseTr closeCexState).trace = [CloseEv.connCloseCall (some (Err.ioError 7))] ∧
    (CloseTr closeCexState).trace.all (fun ev => !ev.isListenerCloseCall) = true := by
  decide

/-- C1 amended: in `Close`, a failure of the connection's close
short-circuits — the error is logged and returned immediately, the
connection field is left in place, and the listener close is not
attempted; the listener close (whose outcome is the listener's own) is
attempted exactly when no connection is held or the connection's close
succeeds. -/
theorem Close_conn_close_failure_short_circuits (st : EndpointState) :
    (∀ c e, st.conn = some c → c.closeErr = some e →
      (CloseTr st).err = some e ∧ (CloseTr st).st = st ∧
      (CloseTr st).logged = [e] ∧
      (CloseTr st).trace = [CloseEv.connCloseCall (some e)]) ∧
    (∀ l, st.listener = some l →
      (st.conn = none ∨ ∃ c, st.conn = some c ∧ c.closeErr = none) →
      CloseEv.listenerCloseCall l.closeErr ∈ (CloseTr st).trace) := by
  constructor
  · intro c e hc he
    simp [CloseTr, hc, he]
  · intro l hl hcase
    rcases hcase with hnone | ⟨c, hc, hce⟩
    · simp [CloseTr, hnone, hl]
      cases h : l.closeErr <;> simp [h]
    · simp [CloseTr, hc, hce, hl]
      cases h : l.closeErr <;> simp [h]

/-- C1 amended claim, applied at the counterexample state: Close
returns the connection-close error with the state unchanged. -/
theorem Close_conn_close_failure_short_circuits_witness :
    (CloseTr closeCexState).err = some (Err.ioError 7) ∧
    (CloseTr closeCexState).st = closeCexState := by
  have h := (Close_conn_close_failure_short_circuits closeCexState).1
    badCloseConn (Err.ioError 7) (by decide) (by decide)
  exact ⟨h.1, h.2.1⟩

/-- A state whose connection answers probes with a wrong-typed
message, so `ping` returns the sentinel `ErrUnexpectedResponse`. -/
def wrongTypedState : EndpointState :=
  { listener := some okListener, conn := some wrongTypedConn,
    cancelPingCh := some ChanState.openCh, pingTickerActive := true }

/-- A state whose connection fails writes with a transport error, so
`ping` fails with a non-sentinel error. -/
def brokenConnState : EndpointState :=
  { listener := some okListener, conn := some brokenConn,
    cancelPingCh := some ChanState.openCh, pingTickerActive := true }

/-- C2: on a tick whose probe fails with the sentinel
`ErrUnexpectedResponse`, the heartbeat loop terminates immediately:
the whole remaining run consumes no further events, its trace is just
that failed ping, and it contains zero connect calls. -/
theorem heartbeat_unexpected_response_terminates
    (st : EndpointState) (acc : AcceptResult) (rest : List LoopEvent)
    (hp : ping st = some Err.unexpectedResponse) :
    loopRun st (LoopEvent.tickFired acc :: rest) =
      { st := st, terminated := true,
        trace := [TraceEv.pinged (some Err.unexpectedResponse)] } ∧
    countConnects (loopRun st (LoopEvent.tickFired acc :: rest)).trace = 0 := by
  have hstep : loopStep st (LoopEvent.tickFired acc) =
      (StepRes.terminated st, [TraceEv.pinged (some Err.unexpectedResponse)]) := by
    simp [loopStep, tickBody, hp]
  constructor
  · simp [loopRun, hstep]
  · simp [loopRun, hstep, countConnects]

/-- C2 applied at a concrete wrong-typed-response state, with further
ticks pending in the schedule: the loop ends after the one failed
ping, with no connect call. -/
theorem heartbeat_unexpected_response_terminates_witness :
    ping wrongTypedState = some Err.unexpectedResponse ∧
    loopRun wrongTypedState
        [LoopEvent.tickFired (AcceptResult.newConn healthyConn),
         LoopEvent.tickFired (AcceptResult.newConn healthyConn)] =
      { st := wrongTypedState, terminated := true,
        trace := [TraceEv.pinged (some Err.unexpectedResponse)] } := by
  refine ⟨by decide, ?_⟩
  exact (heartbeat_unexpected_response_terminates wrongTypedState
    (AcceptResult.newConn healthyConn)
    [LoopEvent.tickFired (AcceptResult.newConn healthyConn)] (by decide)).1

/-- C3: on a tick whose probe fails with any error other than the
sentinel, exactly one connect call is made on that tick; the tick
terminates the loop exactly when the accept reported listener closure;
an accept error leaves the loop probing (retrying next tick); a
successful accept leaves the loop probing with the new connection
stored. -/
theorem heartbeat_transport_error_one_reconnect
    (st : EndpointState) (acc : AcceptResult) (e : Err)
    (hp : ping st = some e) (hne : e ≠ Err.unexpectedResponse) :
    countConnects (tickBody st acc).2 = 1 ∧
    ((tickBody st acc).1.isTerminated = true ↔ acc = AcceptResult.closedSignal) ∧
    (∀ e2, acc = AcceptResult.acceptFailed e2 →
      (tickBody st acc).1 = StepRes.probing (connectTr st acc).st) ∧
    (∀ c, acc = AcceptResult.newConn c →
      (tickBody st acc).1 = StepRes.probing (connectTr st acc).st ∧
      (connectTr st acc).st.conn = some c) := by
  cases acc with
  | newConn c =>
    simp [tickBody, hp, hne, connectTr, countConnects, StepRes.isTerminated]
  | closedSignal =>
    simp [tickBody, hp, hne, connectTr, countConnects, StepRes.isTerminated]
  | acceptFailed e2 =>
    simp [tickBody, hp, hne, connectTr, countConnects, StepRes.isTerminated]

/-- C3 applied at a concrete broken-connection state for each of the
three accept outcomes: one connect call is made per tick, an accept
error keeps probing, closure terminates, success keeps probing with
the new connection. -/
theorem heartbeat_transport_error_one_reconnect_witness :
    countConnects (tickBody brokenConnState (AcceptResult.newConn healthyConn)).2 = 1 ∧
    (tickBody brokenConnState (AcceptResult.closedSignal)).1.isTerminated = true ∧
    (tickBody brokenConnState (AcceptResult.acceptFailed (Err.ioError 9))).1 =
      StepRes.probing (connectTr brokenConnState (AcceptResult.acceptFailed (Err.ioError 9))).st ∧
    (connectTr brokenConnState (AcceptResult.newConn healthyConn)).st.conn = some healthyConn := by
  have h1 := heartbeat_transport_error_one_reconnect brokenConnState
    (AcceptResult.newConn healthyConn) (Err.ioError 3) (by decide) (by decide)
  have h2 := heartbeat_transport_error_one_reconnect brokenConnState
    AcceptResult.closedSignal (Err.ioError 3) (by decide) (by decide)
  have h3 := heartbeat_transport_error_one_reconnect brokenConnState
    (AcceptResult.acceptFailed (Err.ioError 9)) (Err.ioError 3) (by decide) (by decide)
  exact ⟨h1.1, h2.2.1.mpr rfl, h3.2.2.1 (Err.ioError 9) rfl,
    (h1.2.2.2 healthyConn rfl).2⟩

/-- C4: `SendRequest` is write-then-read, returning the first error:
a write failure is returned with no response and the read is not even
attempted (the trace holds only the write attempt); a read failure is
returned with no response; otherwise the decoded response is returned
with nil error. The mutex-guarded exchange is the atomic application
of `SendRequestTr`. -/
theorem SendRequest_write_then_read_first_error
    (st : EndpointState) (request : RemoteSignerMsg) :
    (∀ e, writeMessage st request = some e →
      SendRequestTr st request = ((none, some e), [XferEv.writeAttempt (some e)])) ∧
    (writeMessage st request = none →
      (∀ e, readMessage st = Except.error e →
        SendRequestTr st request =
          ((none, some e), [XferEv.writeAttempt none, XferEv.readAttempt (some e)])) ∧
      (∀ res, readMessage st = Except.ok res →
        SendRequestTr st request =
          ((some res, none), [XferEv.writeAttempt none, XferEv.readAttempt none]))) := by
  refine ⟨fun e he => by simp [SendRequestTr, he], fun hw => ⟨?_, ?_⟩⟩
  · intro e hr
    simp [SendRequestTr, hw, hr]
  · intro res hr
    simp [SendRequestTr, hw, hr]

/-- C4 applied at concrete states: a failing write short-circuits with
only the write attempt in the trace, and a successful exchange returns
the decoded response. -/
theorem SendRequest_write_then_read_first_error_witness :
    SendRequestTr brokenConnState (RemoteSignerMsg.other 1) =
      ((none, some (Err.ioError 3)), [XferEv.writeAttempt (some (Err.ioError 3))]) ∧
    SendRequestTr baseState (RemoteSignerMsg.other 1) =
      ((some RemoteSignerMsg.pingResponse, none),
       [XferEv.writeAttempt none, XferEv.readAttempt none]) := by
  refine ⟨?_, ?_⟩
  · exact (SendRequest_write_then_read_first_error brokenConnState
      (RemoteSignerMsg.other 1)).1 (Err.ioError 3) (by decide)
  · exact ((SendRequest_write_then_read_first_error baseState
      (RemoteSignerMsg.other 1)).2 (by decide)).2 RemoteSignerMsg.pingResponse (by decide)

/-- The connection `connect` stores for each accept outcome: the new
connection on success, nil otherwise. -/
def AcceptResult.storedConnOf : AcceptResult → Option Conn
  | AcceptResult.newConn c => some c
  | AcceptResult.closedSignal => none
  | AcceptResult.acceptFailed _ => none

/-- C5: when `connect` is called while a connection is held, the trace
is exactly the close of the old connection followed by the store of
the accept outcome — so the old connection is closed before any new
one is stored; a failing close is logged (and only logged) and the
error `connect` returns is determined by the accept outcome alone,
never by the close failure. -/
theorem connect_closes_old_before_store
    (st : EndpointState) (acc : AcceptResult) (c : Conn)
    (hc : st.conn = some c) :
    (connectTr st acc).trace =
      [ConnectEv.closedOldConn c.closeErr, ConnectEv.storedConn acc.storedConnOf] ∧
    (connectTr st acc).st.conn = acc.storedConnOf ∧
    (connectTr st acc).logged = c.closeErr.toList ∧
    (connectTr st acc).err =
      (match acc with
       | AcceptResult.acceptFailed e => some e
       | _ => none) := by
  cases acc <;> simp [connectTr, hc, AcceptResult.storedConnOf]

/-- C5 applied concretely: reconnecting while holding a connection
whose close fails still succeeds, stores the new connection, and the
trace shows the old close strictly before the store, with the close
error logged. -/
theorem connect_closes_old_before_store_witness :
    (connectTr closeCexState (AcceptResult.newConn healthyConn)).trace =
      [ConnectEv.closedOldConn (some (Err.ioError 7)),
       ConnectEv.storedConn (some healthyConn)] ∧
    (connectTr closeCexState (AcceptResult.newConn healthyConn)).err = none ∧
    (connectTr closeCexState (AcceptResult.newConn healthyConn)).logged = [Err.ioError 7] := by
  have h := connect_closes_old_before_store closeCexState
    (AcceptResult.newConn healthyConn) badCloseConn (by decide)
  exact ⟨h.1, h.2.2.2, h.2.2.1⟩

/-- C6: `OnStart` propagates a connect error without launching the
heartbeat loop; a connect that reports closure makes `OnStart` fail
with the distinct listener-is-closed error, again without launching
the loop; a successful connect makes `OnStart` create the open
cancellation channel, start the ticker, launch the loop and return
nil. -/
theorem OnStart_lifecycle (st : EndpointState) (acc : AcceptResult) :
    (∀ e, acc = AcceptResult.acceptFailed e →
      OnStart st acc =
        { st := (connectTr st acc).st, err := some e, loopLaunched := false }) ∧
    (acc = AcceptResult.closedSignal →
      (OnStart st acc).err = some Err.listenerClosed ∧
      (OnStart st acc).loopLaunched = false) ∧
    (∀ c, acc = AcceptResult.newConn c →
      (OnStart st acc).err = none ∧
      (OnStart st acc).loopLaunched = true ∧
      (OnStart st acc).st.cancelPingCh = some ChanState.openCh ∧
      (OnStart st acc).st.pingTickerActive = true ∧
      (OnStart st acc).st.conn = some c) := by
  cases acc <;> simp [OnStart, connectTr]

/-- C6 applied concretely: a failed accept propagates its error with
no loop launched; closure yields the listener-is-closed error with no
loop launched; success launches the loop with the channel created. -/
theorem OnStart_lifecycle_witness :
    (OnStart baseState (AcceptResult.acceptFailed (Err.ioError 11))).err =
      some (Err.ioError 11) ∧
    (OnStart baseState AcceptResult.closedSignal).err = some Err.listenerClosed ∧
    (OnStart baseState AcceptResult.closedSignal).loopLaunched = false ∧
    (OnStart baseState (AcceptResult.newConn healthyConn)).loopLaunched = true := by
  have h1 := (OnStart_lifecycle baseState (AcceptResult.acceptFailed (Err.ioError 11))).1
    (Err.ioError 11) rfl
  have h2 := (OnStart_lifecycle baseState AcceptResult.closedSignal).2.1 rfl
  have h3 := (OnStart_lifecycle baseState (AcceptResult.newConn healthyConn)).2.2
    healthyConn rfl
  exact ⟨by rw [h1], h2.1, h2.2, h3.2.1⟩

/-- Close never touches the cancellation-channel field. -/
theorem CloseTr_cancelPingCh (st : EndpointState) :
    (CloseTr st).st.cancelPingCh = st.cancelPingCh := by
  cases hc : st.conn with
  | none =>
    cases hl : st.listener with
    | none => simp [CloseTr, hc, hl]
    | some l => cases hle : l.closeErr <;> simp [CloseTr, hc, hl, hle]
  | some c =>
    cases hce : c.closeErr with
    | some e => simp [CloseTr, hc, hce]
    | none =>
      cases hl : st.listener with
      | none => simp [CloseTr, hc, hce, hl]
      | some l => cases hle : l.closeErr <;> simp [CloseTr, hc, hce, hl, hle]

/-- C7: `OnStop` closes the cancellation signal at most once: whenever
a stop call returns (does not panic), the resulting state has a nil
cancellation-channel field; a first stop on a created (open) channel
does close it; and a further stop on the resulting state returns
without panicking and without closing any channel. -/
theorem OnStop_idempotent
    (st st1 : EndpointState) (b1 : Bool)
    (h : OnStop st = some (st1, b1)) :
    st1.cancelPingCh = none ∧
    (st.cancelPingCh = some ChanState.openCh → b1 = true) ∧
    ∃ st2, OnStop st1 = some (st2, false) := by
  cases hch : st.cancelPingCh with
  | none =>
    simp only [OnStop, hch, Option.some.injEq, Prod.mk.injEq] at h
    have hnil : st1.cancelPingCh = none := by
      rw [← h.1, CloseTr_cancelPingCh, hch]
    refine ⟨hnil, ?_, ?_⟩
    · intro hco
      simp [hch] at hco
    · exact ⟨(CloseTr st1).st, by simp [OnStop, hnil]⟩
  | some ch =>
    cases ch with
    | closedCh => simp [OnStop, hch, closeChan] at h
    | openCh =>
      simp only [OnStop, hch, closeChan, Option.some.injEq, Prod.mk.injEq] at h
      have hnil : st1.cancelPingCh = none := by
        rw [← h.1, CloseTr_cancelPingCh]
      exact ⟨hnil, fun _ => h.2.symm,
        ⟨(CloseTr st1).st, by simp [OnStop, hnil]⟩⟩

/-- C7 applied concretely: stopping a started endpoint closes the
signal once and clears the field; a second stop neither panics nor
closes a channel. -/
theorem OnStop_idempotent_witness :
    (OnStart baseState (AcceptResult.newConn healthyConn)).st.cancelPingCh =
      some ChanState.openCh ∧
    ∃ st1, OnStop (OnStart baseState (AcceptResult.newConn healthyConn)).st =
        some (st1, true) ∧
      st1.cancelPingCh = none ∧ ∃ st2, OnStop st1 = some (st2, false) := by
  refine ⟨by decide, ?_⟩
  have hrun : OnStop (OnStart baseState (AcceptResult.newConn healthyConn)).st =
      some (({ listener := some okListener, conn := none,
               cancelPingCh := none, pingTickerActive := true } : EndpointState), true) := by
    decide
  have h := OnStop_idempotent (OnStart baseState (AcceptResult.newConn healthyConn)).st
    ({ listener := some okListener, conn := none,
       cancelPingCh := none, pingTickerActive := true } : EndpointState) true hrun
  exact ⟨_, hrun, h.1, h.2.2⟩

/-- C8: with no connection held, `writeMessage` fails with the
not-connected error for every message, and consequently `SendRequest`
returns exactly that error with no response and without attempting a
read (the trace holds only the write attempt). -/
theorem writeMessage_not_connected
    (st : EndpointState) (msg request : RemoteSignerMsg)
    (h : st.conn = none) :
    writeMessage st msg = some Err.notConnected ∧
    SendRequestTr st request =
      ((none, some Err.notConnected),
       [XferEv.writeAttempt (some Err.notConnected)]) := by
  have hw : writeMessage st request = some Err.notConnected := by
    simp [writeMessage, h]
  refine ⟨by simp [writeMessage, h], ?_⟩
  simp [SendRequestTr, hw]

/-- C8 applied at a concrete disconnected state. -/
theorem writeMessage_not_connected_witness :
    SendRequestTr
        ({ listener := some okListener, conn := none,
           cancelPingCh := none, pingTickerActive := false } : EndpointState)
        RemoteSignerMsg.pingRequest =
      ((none, some Err.notConnected),
       [XferEv.writeAttempt (some Err.notConnected)]) :=
  (writeMessage_not_connected
    ({ listener := some okListener, conn := none,
       cancelPingCh := none, pingTickerActive := false } : EndpointState)
    RemoteSignerMsg.pingRequest RemoteSignerMsg.pingRequest rfl).2

/-- C9: after any `connect` call, a connection is held exactly when
the call returned (closed = false, err = nil); on an error return or a
closed report the connection field is nil, so no stale connection
survives such a return. -/
theorem connect_no_stale_connection (st : EndpointState) (acc : AcceptResult) :
    ((connectTr st acc).err ≠ none ∨ (connectTr st acc).closed = true →
      (connectTr st acc).st.conn = none) ∧
    (∀ c, (connectTr st acc).st.conn = some c →
      (connectTr st acc).err = none ∧ (connectTr st acc).closed = false) := by
  cases acc <;> simp [connectTr]

/-- C9 applied concretely: a failed accept while a connection was held
leaves the connection field nil. -/
theorem connect_no_stale_connection_witness :
    (connectTr baseState (AcceptResult.acceptFailed (Err.ioError 13))).st.conn = none :=
  (connect_no_stale_connection baseState (AcceptResult.acceptFailed (Err.ioError 13))).1
    (by decide)

/-- A failing write never fails with the sentinel
`ErrUnexpectedResponse`: its errors are the not-connected error or a
classified I/O failure. -/
theorem writeMessage_err_not_sentinel (st : EndpointState) (msg : RemoteSignerMsg) :
    writeMessage st msg ≠ some Err.unexpectedResponse := by
  cases hc : st.conn with
  | none => simp [writeMessage, hc]
  | some c =>
    cases hwo : c.writeOutcome with
    | none => simp [writeMessage, hc, hwo]
    | some f => cases f <;> simp [writeMessage, hc, hwo, classifyIOFailure]

/-- A failing read never fails with the sentinel
`ErrUnexpectedResponse`: its errors are classified I/O failures. -/
theorem readMessage_err_not_sentinel (st : EndpointState) :
    readMessage st ≠ Except.error Err.unexpectedResponse := by
  cases hc : st.conn with
  | none => simp [readMessage, hc]
  | some c =>
    cases hr : c.readOutcome with
    | error f => cases f <;> simp [readMessage, hc, hr, classifyIOFailure]
    | ok m => simp [readMessage, hc, hr]

/-- An error returned by `SendRequest` is always a transport error,
never the sentinel `ErrUnexpectedResponse` (that value is created only
inside `ping`). -/
theorem SendRequest_err_not_sentinel (st : EndpointState) (request : RemoteSignerMsg) :
    (SendRequest st request).2 ≠ some Err.unexpectedResponse := by
  cases hw : writeMessage st request with
  | some e =>
    have hne : some e ≠ some (Err.unexpectedResponse) := by
      intro hcontra
      exact writeMessage_err_not_sentinel st request (hw.trans hcontra)
    simp only [SendRequest, SendRequestTr, hw]
    exact hne
  | none =>
    cases hr : readMessage st with
    | error e =>
      have hne : e ≠ Err.unexpectedResponse := by
        intro hcontra
        rw [hcontra] at hr
        exact readMessage_err_not_sentinel st hr
      simp only [SendRequest, SendRequestTr, hw, hr]
      simp [hne]
    | ok res => simp [SendRequest, SendRequestTr, hw, hr]

/-- When `SendRequest` reports no error, it returned a decoded
response. -/
theorem SendRequest_ok_shape (st : EndpointState) (request : RemoteSignerMsg)
    (h : (SendRequest st request).2 = none) :
    ∃ res, SendRequest st request = (some res, none) := by
  cases hw : writeMessage st request with
  | some e => simp [SendRequest, SendRequestTr, hw] at h
  | none =>
    cases hr : readMessage st with
    | error e => simp [SendRequest, SendRequestTr, hw, hr] at h
    | ok res => exact ⟨res, by simp [SendRequest, SendRequestTr, hw, hr]⟩

/-- C10: `ping` propagates a `SendRequest` failure unchanged, and it
returns the sentinel `ErrUnexpectedResponse` only when the exchange
succeeded (no error, a decoded response present) and the decoded
response is not a `PingResponse`; a transport failure can therefore
never produce the sentinel that the heartbeat loop treats as fatal. -/
theorem ping_sentinel_classification (st : EndpointState) :
    (∀ e, (SendRequest st RemoteSignerMsg.pingRequest).2 = some e → ping st = some e) ∧
    (ping st = some Err.unexpectedResponse →
      (SendRequest st RemoteSignerMsg.pingRequest).2 = none ∧
      ∃ res, (SendRequest st RemoteSignerMsg.pingRequest).1 = some res ∧
        res ≠ RemoteSignerMsg.pingResponse) := by
  rcases hsr : SendRequest st RemoteSignerMsg.pingRequest with ⟨resp, errv⟩
  cases errv with
  | some e =>
    have hping : ping st = some e := by simp [ping, hsr]
    refine ⟨?_, ?_⟩
    · intro e2 he2
      simp at he2
      rw [he2] at hping
      exact hping
    · intro hu
      exfalso
      rw [hping] at hu
      have hns := SendRequest_err_not_sentinel st RemoteSignerMsg.pingRequest
      rw [hsr] at hns
      simp at hns
      simp at hu
      exact hns hu
  | none =>
    cases resp with
    | none =>
      obtain ⟨res, hres⟩ := SendRequest_ok_shape st RemoteSignerMsg.pingRequest
        (by rw [hsr])
      rw [hsr] at hres
      simp at hres
    | some res =>
      refine ⟨?_, ?_⟩
      · intro e2 he2
        simp at he2
      · intro hu
        refine ⟨rfl, res, rfl, ?_⟩
        intro hres
        rw [hres] at hsr
        have : ping st = none := by simp [ping, hsr]
        rw [this] at hu
        cases hu

/-- C10 applied concretely: a transport write failure is propagated
unchanged by `ping`, and at a wrong-typed-response state `ping`
returns the sentinel with the exchange having succeeded on a decoded
non-ping response. -/
theorem ping_sentinel_classification_witness :
    ping brokenConnState = some (Err.ioError 3) ∧
    (SendRequest wrongTypedState RemoteSignerMsg.pingRequest).2 = none ∧
    ∃ res, (SendRequest wrongTypedState RemoteSignerMsg.pingRequest).1 = some res ∧
      res ≠ RemoteSignerMsg.pingResponse := by
  have h1 := (ping_sentinel_classification brokenConnState).1 (Err.ioError 3) (by decide)
  have h2 := (ping_sentinel_classification wrongTypedState).2 (by decide)
  exact ⟨h1, h2.1, h2.2⟩
